import Mathlib

/-!
Verification of the probe-and-diff accessibility engine in
`src/utils/constants.ts` (functions `validateElement`,
`testInteractionWithDomAnalysis`, `analyzeDomChanges`,
`calculateAccessibilityScore`, and the accessible-name resolution inside
`analyzeAccessibility`).

The pure parts (`analyzeDomChanges`, `calculateAccessibilityScore`,
accessible-name resolution) are translated directly.  The page-effectful
parts (`validateElement`, `testInteractionWithDomAnalysis`) are translated
over an abstract page environment: every browser call that can throw is a
field of type `Except String _` (the `String` is the thrown message), and
propagation/catching of exceptions follows the source's `try`/`catch`
structure exactly.  JavaScript truthiness of optional strings (`""` and
`null`/`undefined` are falsy) is modelled explicitly.
-/

namespace FlightProbe

/-- Boolean test that `cs` appears as a contiguous character run at the head
of `l` (helper for substring containment, mirroring JS `String.includes`). -/
def listIsPref : List Char → List Char → Bool
  | [], _ => true
  | _ :: _, [] => false
  | c :: cs, d :: ds => (c = d) && listIsPref cs ds

/-- Boolean test that `needle` occurs contiguously somewhere in the haystack
(helper for `strContains`). -/
def containsSub (needle : List Char) : List Char → Bool
  | [] => listIsPref needle []
  | d :: ds => listIsPref needle (d :: ds) || containsSub needle ds

/-- JS `s.includes(pat)`: `pat` occurs as a substring of `s`. -/
def strContains (s pat : String) : Bool :=
  containsSub pat.toList s.toList

/-- JS truthiness of an optional string: `null`/`undefined` and the empty
string are falsy, every other string is truthy. -/
def jsTruthyStr : Option String → Bool
  | none => false
  | some s => !(s = "" : Bool)

/-! ### Data model (section 3 of the design: snapshots, specs, outcomes) -/

/-- A bounding rectangle as produced by `getBoundingClientRect` (the four
edges used by `captureNearbyElements`).  Coordinates are integers; the code
only compares them with absolute-difference thresholds. -/
structure Rect where
  top : Int
  left : Int
  bottom : Int
  right : Int
deriving DecidableEq

/-- Position record stored for each nearby element. -/
structure Position where
  top : Int
  left : Int
  width : Int
  height : Int
deriving DecidableEq

/-- Sibling descriptor captured by `captureNearbyElements`. -/
structure Sibling where
  tagName : String
  className : String
  id : String
  isVisible : Bool
  hasAriaExpanded : Bool
  ariaExpanded : Option String
deriving DecidableEq

/-- Nearby-element descriptor captured by `captureNearbyElements`. -/
structure NearbyElement where
  tagName : String
  className : String
  id : String
  isVisible : Bool
  position : Position
deriving DecidableEq

/-- `DomNeighborhoodSnapshot`: the record returned by
`captureNearbyElements`. -/
structure DomState where
  elementPosition : Rect
  parentTagName : Option String
  siblings : List Sibling
  nearbyElements : List NearbyElement
deriving DecidableEq

/-- Focus/aria state read before and after an interaction
(`element.evaluate` at lines 157-162 and 182-187). -/
structure ElemState where
  focused : Bool
  ariaExpanded : Option String
  ariaPressed : Option String
  ariaSelected : Option String
deriving DecidableEq

/-- Field-wise change flags computed at lines 189-194. -/
structure StateChange where
  focusChanged : Bool
  ariaExpandedChanged : Bool
  ariaPressedChanged : Bool
  ariaSelectedChanged : Bool
deriving DecidableEq

/-- Entry of `changes.changedVisibility` in `analyzeDomChanges`. -/
structure VisChange where
  element : Sibling
  wasVisible : Bool
  nowVisible : Bool
deriving DecidableEq

/-- Entry of `changes.expandedElements` in `analyzeDomChanges`. -/
structure ExpChange where
  element : Sibling
  wasExpanded : Option String
  nowExpanded : Option String
deriving DecidableEq

/-- `DomChangeReport`: the record returned by `analyzeDomChanges`. -/
structure DomChanges where
  newElements : List NearbyElement
  changedVisibility : List VisChange
  expandedElements : List ExpChange
  interactionType : String
  description : String
deriving DecidableEq

/-- The four interaction kinds accepted by `validateElement`. -/
inductive InteractionKind where
  | click
  | focus
  | hover
  | keydown
deriving DecidableEq

/-- `InteractionSpec`: the `interactionTest` argument. -/
structure InteractionSpec where
  type : InteractionKind
  key : Option String
  expectStateChange : Option Bool
deriving DecidableEq

/-- `InteractionOutcome`: the `interactionResult` record built at
lines 200-208. -/
structure InteractionOutcome where
  type : InteractionKind
  success : Bool
  error : Option String
  interactionTime : Nat
  stateChange : Option StateChange
  accessibilityScore : Nat
deriving DecidableEq

/-- The pair returned by `testInteractionWithDomAnalysis`. -/
structure InteractionData where
  interactionResult : InteractionOutcome
  domChanges : Option DomChanges
deriving DecidableEq

/-- `AccessibilitySnapshot`: the record returned by
`analyzeAccessibility`.  Its construction reads the live element, so for
the orchestrator it is environment-provided; only the accessible-name
resolution is modelled separately (see `accessibleName`). -/
structure AccessibilitySnapshot where
  tagName : String
  isVisible : Bool
  isFocusable : Bool
  ariaAttributes : List (String × String)
  accessibleName : Option String
  hasValidSemantics : Bool
deriving DecidableEq

/-- `ValidationResult`: the record returned by `validateElement`. -/
structure ValidationResult where
  found : Bool
  details : Option AccessibilitySnapshot
  childFound : Bool
  childDetails : Option AccessibilitySnapshot
  interactionResult : Option InteractionOutcome
  domChanges : Option DomChanges
  executionTime : Nat
deriving DecidableEq

/-! ### `analyzeDomChanges` (constants.ts lines 213-278) -/

/-- New-element detection (lines 222-234): visible after-elements with no
visible before-element of the same class and tag whose top is within 50
units. -/
def newElems (initialState finalState : DomState) : List NearbyElement :=
  let initialVisibleElements := initialState.nearbyElements.filter (fun el => el.isVisible)
  let finalVisibleElements := finalState.nearbyElements.filter (fun el => el.isVisible)
  finalVisibleElements.filter (fun finalEl =>
    ! initialVisibleElements.any (fun initialEl =>
        decide (initialEl.className = finalEl.className ∧
                initialEl.tagName = finalEl.tagName ∧
                (initialEl.position.top - finalEl.position.top).natAbs < 50)))

/-- Sibling visibility changes (lines 236-244): the `forEach` over the
final siblings with index lookup into the initial siblings is positional
and skips indices with no initial counterpart, i.e. a `zip`. -/
def visChanges (finalSiblings initialSiblings : List Sibling) : List VisChange :=
  (finalSiblings.zip initialSiblings).filterMap (fun p =>
    if p.2.isVisible ≠ p.1.isVisible then
      some { element := p.1, wasVisible := p.2.isVisible, nowVisible := p.1.isVisible }
    else none)

/-- Sibling aria-expanded changes (lines 245-251), same positional pairing
as `visChanges`. -/
def expChanges (finalSiblings initialSiblings : List Sibling) : List ExpChange :=
  (finalSiblings.zip initialSiblings).filterMap (fun p =>
    if p.2.ariaExpanded ≠ p.1.ariaExpanded then
      some { element := p.1, wasExpanded := p.2.ariaExpanded, nowExpanded := p.1.ariaExpanded }
    else none)

/-- Classification cascade (lines 254-275) applied to the three computed
change lists. -/
def classifyChanges (newElements : List NearbyElement)
    (changedVisibility : List VisChange) (expandedElements : List ExpChange) :
    DomChanges :=
  let base : DomChanges :=
    { newElements := newElements, changedVisibility := changedVisibility,
      expandedElements := expandedElements, interactionType := "none", description := "" }
  match newElements with
  | newElement :: _ =>
    if newElement.tagName = "UL" || strContains newElement.className "dropdown" ||
        strContains newElement.className "menu" then
      { base with interactionType := "dropdown",
                  description := "Opened dropdown with " ++ toString newElements.length ++ " new elements" }
    else if strContains newElement.className "modal" || strContains newElement.className "dialog" then
      { base with interactionType := "modal", description := "Opened modal dialog" }
    else if newElement.tagName = "INPUT" || strContains newElement.className "input" then
      { base with interactionType := "input_expansion", description := "Expanded input field" }
    else
      { base with interactionType := "content_expansion", description := "Revealed additional content" }
  | [] =>
    if changedVisibility.length > 0 then
      { base with interactionType := "visibility_toggle",
                  description := "Toggled visibility of " ++ toString changedVisibility.length ++ " elements" }
    else if expandedElements.length > 0 then
      { base with interactionType := "aria_expansion", description := "Changed aria-expanded state" }
    else base

/-- `analyzeDomChanges(initialState, finalState)`: compute the three change
lists and classify them. -/
def analyzeDomChanges (initialState finalState : DomState) : DomChanges :=
  classifyChanges (newElems initialState finalState)
    (visChanges finalState.siblings initialState.siblings)
    (expChanges finalState.siblings initialState.siblings)

/-! ### `calculateAccessibilityScore` (constants.ts lines 281-293) -/

/-- JS `stateChange?.focusChanged` etc.: optional-chaining a flag off a
possibly-null state change; `undefined` is falsy. -/
def scFlag (f : StateChange → Bool) : Option StateChange → Bool
  | some sc => f sc
  | none => false

/-- `calculateAccessibilityScore(stateChange, success, domChanges)`.
Result `none` models the JS `TypeError` thrown when `domChanges` is null
and `success` is true: `domChanges?.interactionType !== 'none'` is then
true (`undefined !== 'none'`) and the subsequent
`domChanges.expandedElements` access throws.  Every call site in the
executor only reaches defined combinations (success implies `domChanges`
was assigned). -/
def calculateAccessibilityScore (stateChange : Option StateChange)
    (success : Bool) (domChanges : Option DomChanges) : Option Nat :=
  if !success then some 0
  else
    let score := 50
      + (if scFlag StateChange.focusChanged stateChange then 20 else 0)
      + (if scFlag StateChange.ariaExpandedChanged stateChange then 15 else 0)
      + (if scFlag StateChange.ariaPressedChanged stateChange then 10 else 0)
      + (if scFlag StateChange.ariaSelectedChanged stateChange then 5 else 0)
    match domChanges with
    | none => none
    | some dc =>
      if dc.interactionType ≠ "none" then
        some (min (score + 10 + (if dc.expandedElements.length > 0 then 5 else 0)) 100)
      else
        some (min score 100)

/-! ### Accessible-name resolution (constants.ts lines 315-322, inside
`analyzeAccessibility`) -/

/-- The attribute values and rendered text the resolution lambda reads off
one element.  `getAttribute` yields `none` for an absent attribute;
`ariaLabelledby` is the literal attribute value (the code never
dereferences the referenced element). -/
structure ElementAttrs where
  ariaLabel : Option String
  ariaLabelledby : Option String
  alt : Option String
  title : Option String
  innerText : Option String
deriving DecidableEq

/-- JS `a || b` on optional strings: `a` unless it is absent or empty. -/
def jsOrStr (a b : Option String) : Option String :=
  match a with
  | some s => if s = "" then b else some s
  | none => b

/-- The resolution chain
`aria-label || aria-labelledby || alt || title || innerText?.trim() || null`. -/
def accessibleName (el : ElementAttrs) : Option String :=
  jsOrStr el.ariaLabel (jsOrStr el.ariaLabelledby (jsOrStr el.alt
    (jsOrStr el.title (jsOrStr (el.innerText.map String.trim) none))))

/-- Modelled from the spec wording of accessible-name resolution: the first
non-empty value in the given order, `none` when all are empty or absent
(used as the comparison point for the refinement claim about
`accessibleName`). -/
def firstNonEmpty : List (Option String) → Option String
  | [] => none
  | none :: rest => firstNonEmpty rest
  | some s :: rest => if s = "" then firstNonEmpty rest else some s

/-- The spec-side resolution order, as a list fed to `firstNonEmpty`. -/
def accessibleNameSpec (el : ElementAttrs) : Option String :=
  firstNonEmpty [el.ariaLabel, el.ariaLabelledby, el.alt, el.title,
    el.innerText.map String.trim]

/-! ### Page environment

Each browser primitive the code awaits is a field; a `.error msg` value
models that call throwing an exception whose message is `msg`.  The two
neighborhood captures read the live DOM at different moments, so the
pre-interaction and post-interaction captures are separate fields
(`capture` for the baseline in `validateElement` line 62, `captureFinal`
for the re-capture in `testInteractionWithDomAnalysis` line 181); likewise
the two focus/aria state reads.  Wall-clock durations are abstracted as
the fixed fields `interTime` and `execTime`. -/
structure PageEnv (Elem : Type) where
  querySelector : String → Except String (Option Elem)
  queryChild : Elem → String → Except String (Option Elem)
  analyze : Elem → Except String AccessibilitySnapshot
  capture : Elem → Except String DomState
  readInitialState : Elem → Except String ElemState
  clickElem : Elem → Except String Unit
  focusElem : Elem → Except String Unit
  hoverElem : Elem → Except String Unit
  pressElem : Elem → String → Except String Unit
  captureFinal : Elem → Except String DomState
  readFinalState : Elem → Except String ElemState
  interTime : Nat
  execTime : Nat

/-- The `switch (interaction.type)` dispatch (lines 163-179): keydown first
focuses, then presses the key only when `interaction.key` is truthy. -/
def dispatchInteraction {Elem : Type} (env : PageEnv Elem) (element : Elem)
    (interaction : InteractionSpec) : Except String Unit :=
  match interaction.type with
  | .click => env.clickElem element
  | .focus => env.focusElem element
  | .hover => env.hoverElem element
  | .keydown =>
    match env.focusElem element with
    | .error e => .error e
    | .ok _ =>
      if jsTruthyStr interaction.key then
        env.pressElem element (interaction.key.getD "")
      else
        .ok ()

/-- Assembles the return value of `testInteractionWithDomAnalysis`
(lines 199-210) from the current values of the mutable locals.  The
`getD 0` covers the `calculateAccessibilityScore` combination that would
throw in JS; it is unreachable from this call site because `success = true`
implies `domChanges` was assigned. -/
def mkInteractionData (interaction : InteractionSpec) (interTime : Nat)
    (success : Bool) (error : Option String) (stateChange : Option StateChange)
    (domChanges : Option DomChanges) : InteractionData :=
  { interactionResult :=
      { type := interaction.type, success := success, error := error,
        interactionTime := interTime, stateChange := stateChange,
        accessibilityScore :=
          (calculateAccessibilityScore stateChange success domChanges).getD 0 },
    domChanges := domChanges }

/-- `testInteractionWithDomAnalysis(page, element, interaction,
initialDomState)` (lines 145-211).  The `try` block is the chain of
fallible calls; the first `.error` jumps to the `catch`, which returns the
locals assigned so far: in every failure case `stateChange` and
`domChanges` are still null, since both are assigned only after the last
fallible call (`domChanges` at line 188 and `stateChange` at line 189,
after the final state read at line 182). -/
def testInteractionWithDomAnalysis {Elem : Type} (env : PageEnv Elem)
    (element : Elem) (interaction : InteractionSpec)
    (initialDomState : DomState) : InteractionData :=
  match env.readInitialState element with
  | .error msg => mkInteractionData interaction env.interTime false (some msg) none none
  | .ok initialState =>
    match dispatchInteraction env element interaction with
    | .error msg => mkInteractionData interaction env.interTime false (some msg) none none
    | .ok _ =>
      match env.captureFinal element with
      | .error msg => mkInteractionData interaction env.interTime false (some msg) none none
      | .ok finalDomState =>
        match env.readFinalState element with
        | .error msg => mkInteractionData interaction env.interTime false (some msg) none none
        | .ok finalState =>
          let domChanges := analyzeDomChanges initialDomState finalDomState
          let stateChange : StateChange :=
            { focusChanged := decide (initialState.focused ≠ finalState.focused),
              ariaExpandedChanged := decide (initialState.ariaExpanded ≠ finalState.ariaExpanded),
              ariaPressedChanged := decide (initialState.ariaPressed ≠ finalState.ariaPressed),
              ariaSelectedChanged := decide (initialState.ariaSelected ≠ finalState.ariaSelected) }
          mkInteractionData interaction env.interTime true none (some stateChange) (some domChanges)

/-- The result record of `validateElement` (lines 96-104), with the six
data fields explicit and `executionTime` abstracted to `env.execTime`. -/
def mkValidationResult (found : Bool) (details : Option AccessibilitySnapshot)
    (childFound : Bool) (childDetails : Option AccessibilitySnapshot)
    (interactionResult : Option InteractionOutcome) (domChanges : Option DomChanges)
    (executionTime : Nat) : ValidationResult :=
  { found := found, details := details, childFound := childFound,
    childDetails := childDetails, interactionResult := interactionResult,
    domChanges := domChanges, executionTime := executionTime }

/-- `validateElement(page, selector, description, childSelector,
interactionTest)` (lines 38-105).  The `description` parameter only drives
`console.log` calls and is ignored.  There is no `try`/`catch` here, so an
exception from `analyzeAccessibility`, `captureNearbyElements` or a
selector query propagates (`.error`); a selector that matches nothing is
the `.ok none` value and is handled without throwing.  `if (childSelector)`
is JS truthiness: an empty child selector string behaves like an absent
one. -/
def validateElement {Elem : Type} (env : PageEnv Elem) (selector : String)
    (_description : Option String) (childSelector : Option String)
    (interactionTest : Option InteractionSpec) : Except String ValidationResult :=
  match env.querySelector selector with
  | .error e => .error e
  | .ok none =>
    .ok (mkValidationResult false none false none none none env.execTime)
  | .ok (some container) =>
    match env.analyze container with
    | .error e => .error e
    | .ok details =>
      match env.capture container with
      | .error e => .error e
      | .ok initialDomState =>
        if jsTruthyStr childSelector then
          match env.queryChild container (childSelector.getD "") with
          | .error e => .error e
          | .ok none =>
            .ok (mkValidationResult true (some details) false none none none env.execTime)
          | .ok (some childElement) =>
            match env.analyze childElement with
            | .error e => .error e
            | .ok childDetails =>
              match interactionTest with
              | some interaction =>
                let interactionData :=
                  testInteractionWithDomAnalysis env childElement interaction initialDomState
                .ok (mkValidationResult true (some details) true (some childDetails)
                  (some interactionData.interactionResult) interactionData.domChanges env.execTime)
              | none =>
                .ok (mkValidationResult true (some details) true (some childDetails)
                  none none env.execTime)
        else
          match interactionTest with
          | some interaction =>
            let interactionData :=
              testInteractionWithDomAnalysis env container interaction initialDomState
            .ok (mkValidationResult true (some details) false none
              (some interactionData.interactionResult) interactionData.domChanges env.execTime)
          | none =>
            .ok (mkValidationResult true (some details) false none none none env.execTime)

/-! ### Concrete sample page data (used by the witness theorems) -/

/-- Zero rectangle for sample snapshots. -/
def rect0 : Rect := { top := 0, left := 0, bottom := 0, right := 0 }

/-- Sample nearby-element position. -/
def pos0 : Position := { top := 0, left := 0, width := 120, height := 40 }

/-- A visible `<ul class="dropdown-list">` appearing near the target. -/
def ulElem : NearbyElement :=
  { tagName := "UL", className := "dropdown-list", id := "opts",
    isVisible := true, position := pos0 }

/-- A visible sibling panel. -/
def sibShown : Sibling :=
  { tagName := "DIV", className := "panel", id := "p1", isVisible := true,
    hasAriaExpanded := false, ariaExpanded := none }

/-- The same sibling after being hidden. -/
def sibHidden : Sibling := { sibShown with isVisible := false }

/-- A neighborhood snapshot with no siblings and no nearby elements. -/
def emptyDom : DomState :=
  { elementPosition := rect0, parentTagName := none, siblings := [],
    nearbyElements := [] }

/-- Baseline snapshot containing one visible sibling. -/
def beforeToggle : DomState := { emptyDom with siblings := [sibShown] }

/-- After-snapshot: the sibling got hidden and a dropdown list appeared. -/
def afterToggle : DomState :=
  { emptyDom with siblings := [sibHidden], nearbyElements := [ulElem] }

/-- After-snapshot with only the new dropdown list. -/
def afterDropdown : DomState := { emptyDom with nearbyElements := [ulElem] }

/-! ### Helper lemmas about the classification cascade -/

/-- The classifier stores the computed new-element list unchanged. -/
lemma classifyChanges_newElements (ne : List NearbyElement)
    (cv : List VisChange) (ee : List ExpChange) :
    (classifyChanges ne cv ee).newElements = ne := by
  unfold classifyChanges
  cases ne <;> dsimp only <;> split_ifs <;> rfl

/-- The classifier stores the computed visibility-change list unchanged. -/
lemma classifyChanges_changedVisibility (ne : List NearbyElement)
    (cv : List VisChange) (ee : List ExpChange) :
    (classifyChanges ne cv ee).changedVisibility = cv := by
  unfold classifyChanges
  cases ne <;> dsimp only <;> split_ifs <;> rfl

/-- The classifier stores the computed aria-expansion list unchanged. -/
lemma classifyChanges_expandedElements (ne : List NearbyElement)
    (cv : List VisChange) (ee : List ExpChange) :
    (classifyChanges ne cv ee).expandedElements = ee := by
  unfold classifyChanges
  cases ne <;> dsimp only <;> split_ifs <;> rfl

/-- The cascade yields `none` exactly when all three change lists are
empty. -/
lemma classifyChanges_type_none (ne : List NearbyElement)
    (cv : List VisChange) (ee : List ExpChange) :
    (classifyChanges ne cv ee).interactionType = "none" ↔
      ne = [] ∧ cv = [] ∧ ee = [] := by
  unfold classifyChanges
  cases ne with
  | nil =>
    dsimp only
    split_ifs with h1 h2
    · simp only [List.length_pos] at h1
      simp [h1]
    · simp only [List.length_pos] at h2
      simp [h2]
    · simp only [List.length_eq_zero.mp (Nat.eq_zero_of_not_pos h1),
        List.length_eq_zero.mp (Nat.eq_zero_of_not_pos h2)]
      simp
  | cons x xs =>
    dsimp only
    split_ifs <;> simp

/-! ### Claim C6: the diff of a snapshot against itself is empty -/

/-- Zipping a list with itself pairs each entry with itself. -/
lemma zip_self {α : Type} (l : List α) : l.zip l = l.map (fun x => (x, x)) := by
  induction l with
  | nil => rfl
  | cons x xs ih => simpa [List.zip_cons_cons] using ih

/-- Positional sibling comparison of a list with itself reports no
visibility change. -/
lemma visChanges_self (l : List Sibling) : visChanges l l = [] := by
  unfold visChanges
  rw [zip_self, List.filterMap_map]
  simp [Function.comp]

/-- Positional sibling comparison of a list with itself reports no
aria-expanded change. -/
lemma expChanges_self (l : List Sibling) : expChanges l l = [] := by
  unfold expChanges
  rw [zip_self, List.filterMap_map]
  simp [Function.comp]

/-- Comparing a snapshot's nearby elements with themselves yields no new
element: each visible element matches itself (same class, same tag,
vertical distance zero). -/
lemma newElems_self (s : DomState) : newElems s s = [] := by
  unfold newElems
  dsimp only
  rw [List.filter_eq_nil_iff]
  intro f hf
  simp only [Bool.not_eq_true', Bool.not_eq_false]
  exact List.any_eq_true.mpr ⟨f, hf, by simp⟩

/-- Claim C6: for every snapshot `S`, diffing `S` against itself yields
`interactionType = "none"`, an empty description and empty `newElements`,
`changedVisibility` and `expandedElements` lists. -/
theorem analyzeDomChanges_self_none (s : DomState) :
    analyzeDomChanges s s =
      { newElements := [], changedVisibility := [], expandedElements := [],
        interactionType := "none", description := "" } := by
  unfold analyzeDomChanges
  rw [newElems_self, visChanges_self, expChanges_self]
  rfl

/-! ### Claim C5: the classification priority cascade -/

/-- Classification of the first new element, following the spec's cascade
wording: list tag or dropdown/menu class, then modal/dialog class, then
input tag or input class, else content expansion.  "List tag" is read as
`UL` and "input tag" as `INPUT`, the tags the code tests for (the
snapshotter only collects `div`, `ul` and `section` candidates). -/
def classifyFirstNew (e : NearbyElement) : String :=
  if e.tagName = "UL" || strContains e.className "dropdown" ||
      strContains e.className "menu" then "dropdown"
  else if strContains e.className "modal" || strContains e.className "dialog" then "modal"
  else if e.tagName = "INPUT" || strContains e.className "input" then "input_expansion"
  else "content_expansion"

/-- With a nonempty new-element list, the cascade classifies by the first
new element. -/
lemma classifyChanges_type_cons (e : NearbyElement) (rest : List NearbyElement)
    (cv : List VisChange) (ee : List ExpChange) :
    (classifyChanges (e :: rest) cv ee).interactionType = classifyFirstNew e := by
  unfold classifyChanges classifyFirstNew
  dsimp only
  split_ifs <;> rfl

/-- With no new element but a visibility change, the cascade yields
`visibility_toggle`. -/
lemma classifyChanges_type_vis (cv : List VisChange) (ee : List ExpChange)
    (h : cv ≠ []) :
    (classifyChanges [] cv ee).interactionType = "visibility_toggle" := by
  unfold classifyChanges
  dsimp only
  rw [if_pos (List.length_pos.mpr h)]

/-- With no new element and no visibility change but an aria-expanded
change, the cascade yields `aria_expansion`. -/
lemma classifyChanges_type_aria (cv : List VisChange) (ee : List ExpChange)
    (hcv : cv = []) (h : ee ≠ []) :
    (classifyChanges [] cv ee).interactionType = "aria_expansion" := by
  unfold classifyChanges
  dsimp only
  rw [if_neg (by simp [hcv]), if_pos (List.length_pos.mpr h)]

/-- Claim C5: for every pair of snapshots the diff's `interactionType` is
decided by the priority cascade — a nonempty new-element list is classified
by its first element (list tag or dropdown/menu class ⇒ dropdown,
modal/dialog class ⇒ modal, input tag or input class ⇒ input_expansion,
else content_expansion); otherwise a sibling visibility change gives
visibility_toggle; otherwise an aria-expanded change gives aria_expansion;
otherwise none.  In particular a new dropdown-like element dominates a
simultaneous sibling visibility toggle. -/
theorem analyzeDomChanges_classification (b a : DomState) :
    (∀ e rest, (analyzeDomChanges b a).newElements = e :: rest →
        (analyzeDomChanges b a).interactionType = classifyFirstNew e) ∧
    ((analyzeDomChanges b a).newElements = [] →
      (analyzeDomChanges b a).changedVisibility ≠ [] →
      (analyzeDomChanges b a).interactionType = "visibility_toggle") ∧
    ((analyzeDomChanges b a).newElements = [] →
      (analyzeDomChanges b a).changedVisibility = [] →
      (analyzeDomChanges b a).expandedElements ≠ [] →
      (analyzeDomChanges b a).interactionType = "aria_expansion") ∧
    ((analyzeDomChanges b a).newElements = [] →
      (analyzeDomChanges b a).changedVisibility = [] →
      (analyzeDomChanges b a).expandedElements = [] →
      (analyzeDomChanges b a).interactionType = "none") ∧
    (∀ e rest, (analyzeDomChanges b a).newElements = e :: rest →
      (e.tagName = "UL" ∨ strContains e.className "dropdown" = true ∨
        strContains e.className "menu" = true) →
      (analyzeDomChanges b a).changedVisibility ≠ [] →
      (analyzeDomChanges b a).interactionType = "dropdown") := by
  unfold analyzeDomChanges
  generalize newElems b a = NE
  generalize visChanges a.siblings b.siblings = CV
  generalize expChanges a.siblings b.siblings = EE
  refine ⟨?_, ?_, ?_, ?_, ?_⟩
  · intro e rest h
    rw [classifyChanges_newElements] at h
    rw [h]
    exact classifyChanges_type_cons e rest CV EE
  · intro h1 h2
    rw [classifyChanges_newElements] at h1
    rw [classifyChanges_changedVisibility] at h2
    rw [h1]
    exact classifyChanges_type_vis CV EE h2
  · intro h1 h2 h3
    rw [classifyChanges_newElements] at h1
    rw [classifyChanges_changedVisibility] at h2
    rw [classifyChanges_expandedElements] at h3
    rw [h1]
    exact classifyChanges_type_aria CV EE h2 h3
  · intro h1 h2 h3
    rw [classifyChanges_newElements] at h1
    rw [classifyChanges_changedVisibility] at h2
    rw [classifyChanges_expandedElements] at h3
    exact (classifyChanges_type_none NE CV EE).mpr ⟨h1, h2, h3⟩
  · intro e rest h hlike _
    rw [classifyChanges_newElements] at h
    rw [h, classifyChanges_type_cons e rest CV EE]
    unfold classifyFirstNew
    rcases hlike with h1 | h1 | h1 <;> simp [h1]

/-! ### Claim C1: score bounds -/

/-- `scFlag` applied to a present state change reads the flag. -/
lemma scFlag_some (f : StateChange → Bool) (sc : StateChange) :
    scFlag f (some sc) = f sc := rfl

/-- Claim C1: for every state change, success flag and diff report produced
by the diff analyzer, the scorer returns a defined score in `[0, 100]`, and
the score is `0` whenever the interaction failed. -/
theorem accessibilityScore_bounds (sc : Option StateChange) (succ : Bool)
    (b a : DomState) :
    ∃ n, calculateAccessibilityScore sc succ (some (analyzeDomChanges b a)) = some n ∧
      n ≤ 100 ∧ (succ = false → n = 0) := by
  cases succ with
  | false => exact ⟨0, rfl, Nat.zero_le _, fun _ => rfl⟩
  | true =>
    unfold calculateAccessibilityScore
    simp only [Bool.not_true, Bool.false_eq_true, if_false]
    split
    · exact ⟨_, rfl, Nat.min_le_right _ _, by simp⟩
    · exact ⟨_, rfl, Nat.min_le_right _ _, by simp⟩

/-! ### Claim C4: the exact score formula -/

/-- The claimed score formula before clamping: 50 base, plus 20 for a
focus change, 15 for an aria-expanded change, 10 for an aria-pressed
change, 5 for an aria-selected change, 10 for a non-`none` interaction
type, and a further 5 when the diff recorded at least one aria-expansion. -/
def specScoreFormula (sc : StateChange) (dc : DomChanges) : Nat :=
  50 + (if sc.focusChanged then 20 else 0)
     + (if sc.ariaExpandedChanged then 15 else 0)
     + (if sc.ariaPressedChanged then 10 else 0)
     + (if sc.ariaSelectedChanged then 5 else 0)
     + (if dc.interactionType ≠ "none" then 10 else 0)
     + (if dc.expandedElements ≠ [] then 5 else 0)

/-- On a successful interaction with a present diff report satisfying the
analyzer's reachability invariant (aria-expansions imply a non-`none`
type), the computed score equals the claimed formula clamped to 100. -/
lemma calc_eq_specScoreFormula (sc : StateChange) (dc : DomChanges)
    (hreach : dc.expandedElements ≠ [] → dc.interactionType ≠ "none") :
    calculateAccessibilityScore (some sc) true (some dc) =
      some (min (specScoreFormula sc dc) 100) := by
  unfold calculateAccessibilityScore specScoreFormula
  by_cases ht : dc.interactionType = "none"
  · have h2 : dc.expandedElements = [] := by
      by_contra hne
      exact hreach hne ht
    rw [if_neg (by simp), if_neg (not_not.mpr ht)]
    simp [scFlag_some, ht, h2]
  · rw [if_neg (by simp), if_pos ht]
    cases hE : dc.expandedElements with
    | nil => simp [scFlag_some, ht, hE]
    | cons x xs => simp [scFlag_some, ht, hE]

/-- Every diff report the analyzer produces satisfies: a recorded
aria-expansion forces a non-`none` interaction type. -/
lemma analyzeDomChanges_expanded_type (b a : DomState) :
    (analyzeDomChanges b a).expandedElements ≠ [] →
      (analyzeDomChanges b a).interactionType ≠ "none" := by
  intro h ht
  unfold analyzeDomChanges at h ht
  obtain ⟨-, -, h3⟩ := (classifyChanges_type_none _ _ _).mp ht
  rw [classifyChanges_expandedElements] at h
  exact h h3

/-- Claim C4: on a successful interaction the computed score is exactly the
claimed formula clamped to 100, for every diff report the analyzer can
produce; in particular a diff classified as `dropdown` scores at least 60. -/
theorem accessibilityScore_formula (sc : StateChange) (b a : DomState) :
    calculateAccessibilityScore (some sc) true (some (analyzeDomChanges b a)) =
      some (min (specScoreFormula sc (analyzeDomChanges b a)) 100) ∧
    ((analyzeDomChanges b a).interactionType = "dropdown" →
      60 ≤ min (specScoreFormula sc (analyzeDomChanges b a)) 100) := by
  constructor
  · exact calc_eq_specScoreFormula sc _ (analyzeDomChanges_expanded_type b a)
  · intro hd
    have ht : (analyzeDomChanges b a).interactionType ≠ "none" := by
      rw [hd]; decide
    refine le_min_iff.mpr ⟨?_, by norm_num⟩
    unfold specScoreFormula
    rw [if_pos ht]
    split_ifs <;> omega

/-! ### Claim C7: accessible-name resolution order -/

/-- The JS `||` chain step agrees with taking the first non-empty entry of
the corresponding list. -/
lemma jsOrStr_firstNonEmpty (a : Option String) (l : List (Option String)) :
    jsOrStr a (firstNonEmpty l) = firstNonEmpty (a :: l) := by
  cases a with
  | none => rfl
  | some s =>
    by_cases h : s = "" <;> simp [jsOrStr, firstNonEmpty, h]

/-- Claim C7: the analyzer's accessible name is the first non-empty value
in the order aria-label, aria-labelledby (taken as a literal attribute
value, never dereferenced), alt, title, trimmed rendered text, and `none`
when every entry is empty or absent. -/
theorem accessibleName_resolution (el : ElementAttrs) :
    accessibleName el = accessibleNameSpec el := by
  unfold accessibleName accessibleNameSpec
  have h0 : jsOrStr (el.innerText.map String.trim) none =
      firstNonEmpty [el.innerText.map String.trim] := by
    cases h : el.innerText.map String.trim with
    | none => rfl
    | some s => by_cases hs : s = "" <;> simp [jsOrStr, firstNonEmpty, hs]
  rw [h0, jsOrStr_firstNonEmpty, jsOrStr_firstNonEmpty, jsOrStr_firstNonEmpty,
    jsOrStr_firstNonEmpty]

/-! ### Claim C10: the diff never reports removals -/

/-- Claim C10: every reported new element is a visible member of the after
snapshot; visibility and aria-expanded changes are positional pairs of an
after sibling with its before counterpart at the same index (after-siblings
beyond the before list contribute nothing, so both change lists are no
longer than either sibling list); removed elements never appear in any
list. -/
theorem analyzeDomChanges_no_removals (b a : DomState) :
    (∀ e, e ∈ (analyzeDomChanges b a).newElements →
        e ∈ a.nearbyElements ∧ e.isVisible = true) ∧
    (analyzeDomChanges b a).changedVisibility.length ≤
        min a.siblings.length b.siblings.length ∧
    (analyzeDomChanges b a).expandedElements.length ≤
        min a.siblings.length b.siblings.length ∧
    (∀ c, c ∈ (analyzeDomChanges b a).changedVisibility →
        ∃ p, p ∈ a.siblings.zip b.siblings ∧ c.element = p.1 ∧
          c.wasVisible = p.2.isVisible ∧ c.nowVisible = p.1.isVisible ∧
          p.2.isVisible ≠ p.1.isVisible) ∧
    (∀ x, x ∈ (analyzeDomChanges b a).expandedElements →
        ∃ p, p ∈ a.siblings.zip b.siblings ∧ x.element = p.1 ∧
          x.wasExpanded = p.2.ariaExpanded ∧ x.nowExpanded = p.1.ariaExpanded ∧
          p.2.ariaExpanded ≠ p.1.ariaExpanded) := by
  unfold analyzeDomChanges
  rw [classifyChanges_newElements, classifyChanges_changedVisibility,
    classifyChanges_expandedElements]
  refine ⟨?_, ?_, ?_, ?_, ?_⟩
  · intro e he
    unfold newElems at he
    simp only [List.mem_filter] at he
    obtain ⟨⟨hmem, hvis⟩, -⟩ := he
    exact ⟨hmem, hvis⟩
  · calc (visChanges a.siblings b.siblings).length
        ≤ (a.siblings.zip b.siblings).length := List.length_filterMap_le _ _
      _ = min a.siblings.length b.siblings.length := List.length_zip a.siblings b.siblings
  · calc (expChanges a.siblings b.siblings).length
        ≤ (a.siblings.zip b.siblings).length := List.length_filterMap_le _ _
      _ = min a.siblings.length b.siblings.length := List.length_zip a.siblings b.siblings
  · intro c hc
    unfold visChanges at hc
    simp only [List.mem_filterMap] at hc
    obtain ⟨p, hp, hf⟩ := hc
    by_cases hv : p.2.isVisible = p.1.isVisible
    · simp [hv] at hf
    · rw [if_pos hv] at hf
      obtain rfl := Option.some.inj hf
      exact ⟨p, hp, rfl, rfl, rfl, hv⟩
  · intro x hx
    unfold expChanges at hx
    simp only [List.mem_filterMap] at hx
    obtain ⟨p, hp, hf⟩ := hx
    by_cases hv : p.2.ariaExpanded = p.1.ariaExpanded
    · simp [hv] at hf
    · rw [if_pos hv] at hf
      obtain rfl := Option.some.inj hf
      exact ⟨p, hp, rfl, rfl, rfl, hv⟩

/-! ### Claim C2: a missing container is a normal outcome -/

/-- Claim C2: when the container selector matches nothing, `validateElement`
returns normally (no propagated exception, whatever the other page calls
would do) with `found = false` and every dependent field null/false. -/
theorem validateElement_not_found {Elem : Type} (env : PageEnv Elem)
    (selector : String) (dsc childSelector : Option String)
    (interactionTest : Option InteractionSpec)
    (h : env.querySelector selector = .ok none) :
    validateElement env selector dsc childSelector interactionTest =
      .ok { found := false, details := none, childFound := false,
            childDetails := none, interactionResult := none, domChanges := none,
            executionTime := env.execTime } := by
  unfold validateElement
  rw [h]
  rfl

/-! ### Claim C3: interaction failures are absorbed -/

/-- The failure shape claimed for the executor's result: failed, carrying
the thrown message, with null state change, score 0 and null diff. -/
def failedOutcome (r : InteractionData) (msg : String) : Prop :=
  r.interactionResult.success = false ∧
  r.interactionResult.error = some msg ∧
  r.interactionResult.stateChange = none ∧
  r.interactionResult.accessibilityScore = 0 ∧
  r.domChanges = none

/-- Claim C3: whichever step of the executor throws — the pre-state read,
the interaction dispatch, the post-interaction capture or the post-state
read — the exception is absorbed (the executor returns a value rather than
an `Except`) and the result is the failure shape with the thrown message. -/
theorem interaction_failure_isolated {Elem : Type} (env : PageEnv Elem)
    (element : Elem) (interaction : InteractionSpec) (initialDomState : DomState)
    (msg : String) :
    (env.readInitialState element = .error msg →
      failedOutcome (testInteractionWithDomAnalysis env element interaction initialDomState) msg) ∧
    (∀ st, env.readInitialState element = .ok st →
      dispatchInteraction env element interaction = .error msg →
      failedOutcome (testInteractionWithDomAnalysis env element interaction initialDomState) msg) ∧
    (∀ st, env.readInitialState element = .ok st →
      dispatchInteraction env element interaction = .ok () →
      env.captureFinal element = .error msg →
      failedOutcome (testInteractionWithDomAnalysis env element interaction initialDomState) msg) ∧
    (∀ st d, env.readInitialState element = .ok st →
      dispatchInteraction env element interaction = .ok () →
      env.captureFinal element = .ok d →
      env.readFinalState element = .error msg →
      failedOutcome (testInteractionWithDomAnalysis env element interaction initialDomState) msg) := by
  refine ⟨?_, ?_, ?_, ?_⟩
  · intro h1
    unfold testInteractionWithDomAnalysis
    rw [h1]
    exact ⟨rfl, rfl, rfl, rfl, rfl⟩
  · intro st h1 h2
    unfold testInteractionWithDomAnalysis
    rw [h1, h2]
    exact ⟨rfl, rfl, rfl, rfl, rfl⟩
  · intro st h1 h2 h3
    unfold testInteractionWithDomAnalysis
    rw [h1, h2, h3]
    exact ⟨rfl, rfl, rfl, rfl, rfl⟩
  · intro st d h1 h2 h3 h4
    unfold testInteractionWithDomAnalysis
    rw [h1, h2, h3, h4]
    exact ⟨rfl, rfl, rfl, rfl, rfl⟩

/-! ### Claim C8: which element the interaction targets -/

/-- Shared run lemma: with the container found, a truthy child selector, the
child found and an interaction spec supplied, `validateElement` assembles
the result from the interaction executed against the child with the
container-centered baseline snapshot. -/
lemma validateElement_child_run {Elem : Type} (env : PageEnv Elem)
    (selector : String) (dsc : Option String) (cs : String)
    (it : InteractionSpec) (container child : Elem)
    (d1 d2 : AccessibilitySnapshot) (s0 : DomState)
    (hcs : cs ≠ "")
    (hq : env.querySelector selector = .ok (some container))
    (ha1 : env.analyze container = .ok d1)
    (hcap : env.capture container = .ok s0)
    (hqc : env.queryChild container cs = .ok (some child))
    (ha2 : env.analyze child = .ok d2) :
    validateElement env selector dsc (some cs) (some it) =
      .ok { found := true, details := some d1, childFound := true,
            childDetails := some d2,
            interactionResult :=
              some (testInteractionWithDomAnalysis env child it s0).interactionResult,
            domChanges := (testInteractionWithDomAnalysis env child it s0).domChanges,
            executionTime := env.execTime } := by
  unfold validateElement
  rw [hq]
  dsimp only
  rw [ha1]
  dsimp only
  rw [hcap]
  dsimp only
  rw [if_pos (show jsTruthyStr (some cs) = true by simp [jsTruthyStr, hcs])]
  dsimp only [Option.getD_some]
  rw [hqc]
  dsimp only
  rw [ha2]
  rfl

/-- Claim C8: with the container found — a supplied (non-empty) child
selector whose child is found routes the interaction and diff to the child;
no child selector routes them to the container; a supplied child selector
whose child is missing suppresses the interaction entirely. -/
theorem validateElement_targets {Elem : Type} (env : PageEnv Elem)
    (selector : String) (dsc : Option String) (cs : String)
    (it : InteractionSpec) (container child : Elem)
    (d1 d2 : AccessibilitySnapshot) (s0 : DomState)
    (hcs : cs ≠ "")
    (hq : env.querySelector selector = .ok (some container))
    (ha1 : env.analyze container = .ok d1)
    (hcap : env.capture container = .ok s0) :
    (env.queryChild container cs = .ok (some child) →
      env.analyze child = .ok d2 →
      validateElement env selector dsc (some cs) (some it) =
        .ok { found := true, details := some d1, childFound := true,
              childDetails := some d2,
              interactionResult :=
                some (testInteractionWithDomAnalysis env child it s0).interactionResult,
              domChanges := (testInteractionWithDomAnalysis env child it s0).domChanges,
              executionTime := env.execTime }) ∧
    (validateElement env selector dsc none (some it) =
      .ok { found := true, details := some d1, childFound := false,
            childDetails := none,
            interactionResult :=
              some (testInteractionWithDomAnalysis env container it s0).interactionResult,
            domChanges := (testInteractionWithDomAnalysis env container it s0).domChanges,
            executionTime := env.execTime }) ∧
    (env.queryChild container cs = .ok none →
      validateElement env selector dsc (some cs) (some it) =
        .ok { found := true, details := some d1, childFound := false,
              childDetails := none, interactionResult := none, domChanges := none,
              executionTime := env.execTime }) := by
  refine ⟨?_, ?_, ?_⟩
  · intro hqc ha2
    exact validateElement_child_run env selector dsc cs it container child d1 d2 s0
      hcs hq ha1 hcap hqc ha2
  · unfold validateElement
    rw [hq]
    dsimp only
    rw [ha1]
    dsimp only
    rw [hcap]
    rfl
  · intro hqc
    unfold validateElement
    rw [hq]
    dsimp only
    rw [ha1]
    dsimp only
    rw [hcap]
    dsimp only
    rw [if_pos (show jsTruthyStr (some cs) = true by simp [jsTruthyStr, hcs])]
    dsimp only [Option.getD_some]
    rw [hqc]
    rfl

/-! ### Claim C9: the two snapshots handed to the diff -/

/-- Claim C9: when a child selector and an interaction spec are supplied
and the child is found, the diff the probe reports compares the baseline
neighborhood captured around the container (`env.capture container`)
against the post-interaction neighborhood captured around the child
(`env.captureFinal child`): the two snapshots are centered on different
elements. -/
theorem validateElement_snapshot_centers {Elem : Type} (env : PageEnv Elem)
    (selector : String) (dsc : Option String) (cs : String)
    (it : InteractionSpec) (container child : Elem)
    (d1 d2 : AccessibilitySnapshot) (s0 s1 : DomState) (st0 st1 : ElemState)
    (hcs : cs ≠ "")
    (hq : env.querySelector selector = .ok (some container))
    (ha1 : env.analyze container = .ok d1)
    (hcap : env.capture container = .ok s0)
    (hqc : env.queryChild container cs = .ok (some child))
    (ha2 : env.analyze child = .ok d2)
    (hr0 : env.readInitialState child = .ok st0)
    (hdis : dispatchInteraction env child it = .ok ())
    (hcapF : env.captureFinal child = .ok s1)
    (hr1 : env.readFinalState child = .ok st1) :
    ∃ r, validateElement env selector dsc (some cs) (some it) = .ok r ∧
      r.domChanges = some (analyzeDomChanges s0 s1) := by
  have hrun :
      testInteractionWithDomAnalysis env child it s0 =
        mkInteractionData it env.interTime true none
          (some { focusChanged := decide (st0.focused ≠ st1.focused),
                  ariaExpandedChanged := decide (st0.ariaExpanded ≠ st1.ariaExpanded),
                  ariaPressedChanged := decide (st0.ariaPressed ≠ st1.ariaPressed),
                  ariaSelectedChanged := decide (st0.ariaSelected ≠ st1.ariaSelected) })
          (some (analyzeDomChanges s0 s1)) := by
    unfold testInteractionWithDomAnalysis
    rw [hr0, hdis, hcapF, hr1]
  refine ⟨_, validateElement_child_run env selector dsc cs it container child d1 d2 s0
    hcs hq ha1 hcap hqc ha2, ?_⟩
  rw [hrun]
  rfl

/-! ### Concrete environments and witness theorems -/

/-- A pre-interaction focus/aria state. -/
def stBase : ElemState :=
  { focused := false, ariaExpanded := none, ariaPressed := none, ariaSelected := none }

/-- A post-interaction focus/aria state. -/
def stAfter : ElemState :=
  { focused := true, ariaExpanded := some "true", ariaPressed := none, ariaSelected := none }

/-- A plain click interaction spec. -/
def clickSpec : InteractionSpec := { type := .click, key := none, expectStateChange := none }

/-- A sample accessibility snapshot returned by the analyzer. -/
def snapC : AccessibilitySnapshot :=
  { tagName := "DIV", isVisible := true, isFocusable := false,
    ariaAttributes := [], accessibleName := none, hasValidSemantics := false }

/-- A state-change record with no flags set. -/
def scNone : StateChange :=
  { focusChanged := false, ariaExpandedChanged := false,
    ariaPressedChanged := false, ariaSelectedChanged := false }

/-- Page on which every selector misses and every other primitive would
throw: exercises the not-found path. -/
def envNotFound : PageEnv Nat :=
  { querySelector := fun _ => .ok none,
    queryChild := fun _ _ => .ok none,
    analyze := fun _ => .error "analyze unavailable",
    capture := fun _ => .error "capture unavailable",
    readInitialState := fun _ => .error "read unavailable",
    clickElem := fun _ => .ok (),
    focusElem := fun _ => .ok (),
    hoverElem := fun _ => .ok (),
    pressElem := fun _ _ => .ok (),
    captureFinal := fun _ => .error "capture unavailable",
    readFinalState := fun _ => .error "read unavailable",
    interTime := 3, execTime := 9 }

/-- Page whose pre-state read throws (element detached before the read). -/
def envFail0 : PageEnv Nat :=
  { envNotFound with readInitialState := fun _ => .error "detached" }

/-- Page whose click dispatch throws. -/
def envFail1 : PageEnv Nat :=
  { envFail0 with readInitialState := fun _ => .ok stBase,
                  clickElem := fun _ => .error "click failed" }

/-- Page whose post-interaction capture throws. -/
def envFail2 : PageEnv Nat :=
  { envFail1 with clickElem := fun _ => .ok (),
                  captureFinal := fun _ => .error "capture failed" }

/-- Page whose post-state read throws. -/
def envFail3 : PageEnv Nat :=
  { envFail2 with captureFinal := fun _ => .ok emptyDom,
                  readFinalState := fun _ => .error "final read failed" }

/-- Fully working page: element 0 is the container (selector `#booking`),
element 1 the child (child selector `button`); all interactions succeed,
the baseline neighborhood is `beforeToggle` and the post-interaction
neighborhood `afterToggle`. -/
def envFull : PageEnv Nat :=
  { querySelector := fun s => if s = "#booking" then .ok (some 0) else .ok none,
    queryChild := fun e cs => if e = 0 ∧ cs = "button" then .ok (some 1) else .ok none,
    analyze := fun _ => .ok snapC,
    capture := fun _ => .ok beforeToggle,
    readInitialState := fun _ => .ok stBase,
    clickElem := fun _ => .ok (),
    focusElem := fun _ => .ok (),
    hoverElem := fun _ => .ok (),
    pressElem := fun _ _ => .ok (),
    captureFinal := fun _ => .ok afterToggle,
    readFinalState := fun _ => .ok stAfter,
    interTime := 3, execTime := 9 }

/-- The visibility change recorded when `sibShown` becomes `sibHidden`. -/
def visW : VisChange := { element := sibHidden, wasVisible := true, nowVisible := false }

/-- Witness for C1 at a concrete state change, flag and snapshot pair. -/
theorem accessibilityScore_bounds_witness :
    ∃ n, calculateAccessibilityScore none true (some (analyzeDomChanges emptyDom afterDropdown)) =
        some n ∧ n ≤ 100 ∧ (true = false → n = 0) :=
  accessibilityScore_bounds none true emptyDom afterDropdown

/-- Witness for C2 on a concrete page where the selector misses. -/
theorem validateElement_not_found_witness :
    validateElement envNotFound "#missing" none none none =
      .ok { found := false, details := none, childFound := false,
            childDetails := none, interactionResult := none, domChanges := none,
            executionTime := envNotFound.execTime } :=
  validateElement_not_found envNotFound "#missing" none none none rfl

/-- Witness for C3: each of the four fallible steps throwing on a concrete
page yields the failure-shaped outcome carrying that message. -/
theorem interaction_failure_isolated_witness :
    failedOutcome (testInteractionWithDomAnalysis envFail0 0 clickSpec emptyDom) "detached" ∧
    failedOutcome (testInteractionWithDomAnalysis envFail1 0 clickSpec emptyDom) "click failed" ∧
    failedOutcome (testInteractionWithDomAnalysis envFail2 0 clickSpec emptyDom) "capture failed" ∧
    failedOutcome (testInteractionWithDomAnalysis envFail3 0 clickSpec emptyDom) "final read failed" :=
  ⟨(interaction_failure_isolated envFail0 0 clickSpec emptyDom "detached").1 rfl,
   (interaction_failure_isolated envFail1 0 clickSpec emptyDom "click failed").2.1 stBase rfl rfl,
   (interaction_failure_isolated envFail2 0 clickSpec emptyDom "capture failed").2.2.1 stBase rfl rfl rfl,
   (interaction_failure_isolated envFail3 0 clickSpec emptyDom "final read failed").2.2.2
     stBase emptyDom rfl rfl rfl rfl⟩

/-- Witness for C4 on a concrete dropdown-producing snapshot pair. -/
theorem accessibilityScore_formula_witness :
    calculateAccessibilityScore (some scNone) true (some (analyzeDomChanges emptyDom afterDropdown)) =
      some (min (specScoreFormula scNone (analyzeDomChanges emptyDom afterDropdown)) 100) ∧
    60 ≤ min (specScoreFormula scNone (analyzeDomChanges emptyDom afterDropdown)) 100 :=
  ⟨(accessibilityScore_formula scNone emptyDom afterDropdown).1,
   (accessibilityScore_formula scNone emptyDom afterDropdown).2 (by decide)⟩

/-- Witness for C5 on a diff containing both a new dropdown-like element
and a sibling visibility toggle. -/
theorem analyzeDomChanges_classification_witness :
    (analyzeDomChanges beforeToggle afterToggle).interactionType = classifyFirstNew ulElem ∧
    (analyzeDomChanges beforeToggle afterToggle).interactionType = "dropdown" :=
  ⟨(analyzeDomChanges_classification beforeToggle afterToggle).1 ulElem [] (by decide),
   (analyzeDomChanges_classification beforeToggle afterToggle).2.2.2.2 ulElem []
     (by decide) (Or.inl (by decide)) (by decide)⟩

/-- Witness for C8 on the fully working page: the three routing scenarios
at concrete selectors. -/
theorem validateElement_targets_witness :
    (validateElement envFull "#booking" none (some "button") (some clickSpec) =
      .ok { found := true, details := some snapC, childFound := true,
            childDetails := some snapC,
            interactionResult :=
              some (testInteractionWithDomAnalysis envFull 1 clickSpec beforeToggle).interactionResult,
            domChanges := (testInteractionWithDomAnalysis envFull 1 clickSpec beforeToggle).domChanges,
            executionTime := envFull.execTime }) ∧
    (validateElement envFull "#booking" none none (some clickSpec) =
      .ok { found := true, details := some snapC, childFound := false,
            childDetails := none,
            interactionResult :=
              some (testInteractionWithDomAnalysis envFull 0 clickSpec beforeToggle).interactionResult,
            domChanges := (testInteractionWithDomAnalysis envFull 0 clickSpec beforeToggle).domChanges,
            executionTime := envFull.execTime }) ∧
    (validateElement envFull "#booking" none (some "link") (some clickSpec) =
      .ok { found := true, details := some snapC, childFound := false,
            childDetails := none, interactionResult := none, domChanges := none,
            executionTime := envFull.execTime }) :=
  ⟨(validateElement_targets envFull "#booking" none "button" clickSpec 0 1 snapC snapC
      beforeToggle (by decide) rfl rfl rfl).1 rfl rfl,
   (validateElement_targets envFull "#booking" none "button" clickSpec 0 1 snapC snapC
      beforeToggle (by decide) rfl rfl rfl).2.1,
   (validateElement_targets envFull "#booking" none "link" clickSpec 0 1 snapC snapC
      beforeToggle (by decide) rfl rfl rfl).2.2 rfl⟩

/-- Witness for C9 on the fully working page: the reported diff compares
the container-centered baseline against the child-centered after
snapshot. -/
theorem validateElement_snapshot_centers_witness :
    ∃ r, validateElement envFull "#booking" none (some "button") (some clickSpec) = .ok r ∧
      r.domChanges = some (analyzeDomChanges beforeToggle afterToggle) :=
  validateElement_snapshot_centers envFull "#booking" none "button" clickSpec 0 1
    snapC snapC beforeToggle afterToggle stBase stAfter
    (by decide) rfl rfl rfl rfl rfl rfl rfl rfl rfl

/-- Witness for C10 on the toggling snapshot pair: the new element comes
from the after snapshot, the length bound holds, and the recorded
visibility change pairs the after sibling with its before counterpart. -/
theorem analyzeDomChanges_no_removals_witness :
    (ulElem ∈ afterToggle.nearbyElements ∧ ulElem.isVisible = true) ∧
    (analyzeDomChanges beforeToggle afterToggle).changedVisibility.length ≤
      min afterToggle.siblings.length beforeToggle.siblings.length ∧
    (∃ p, p ∈ afterToggle.siblings.zip beforeToggle.siblings ∧
      visW.element = p.1 ∧ visW.wasVisible = p.2.isVisible ∧
      visW.nowVisible = p.1.isVisible ∧ p.2.isVisible ≠ p.1.isVisible) :=
  ⟨(analyzeDomChanges_no_removals beforeToggle afterToggle).1 ulElem (by decide),
   (analyzeDomChanges_no_removals beforeToggle afterToggle).2.1,
   (analyzeDomChanges_no_removals beforeToggle afterToggle).2.2.2.1 visW (by decide)⟩

end FlightProbe
